import Mathlib

/-!
Shallow embedding of the ecommerce-detail-backend route handlers.

The repository is an Express backend whose persistent state lives behind a
remote HTTP store (the "remote store facade" of the spec) and whose AI and
object-store calls are external services.  The embedding models:

* the remote store as an explicit `DB` state threaded through each handler,
  with the facade's CRUD operations (`src/unnamed/part_000`, the d1Client)
  realised as list operations;
* external AI calls, object-store downloads and the JS `JSON.parse` of the
  runtime as environment parameters of each handler (an `Except`/`Option`
  outcome per call, a `String → Option JValue` parser);
* each route handler of `src/src/routes/*.ts` and `src/unnamed/part_001`
  (auth routes) as a pure function from request data, environment and `DB`
  to a response value and an updated `DB`.
-/

namespace ECom

/-- JSON values as produced by the JavaScript runtime's `JSON.parse`.  Model
JSON numbers as integers; no claim depends on fractional numerics. -/
inductive JValue where
  | null : JValue
  | bool  (b : Bool) : JValue
  | num  (n : Int) : JValue
  | str  (s : String) : JValue
  | arr  (xs : List JValue) : JValue
  | obj  (fields : List (String × JValue)) : JValue

/-- JavaScript truthiness of a JSON value ( `null`, `false`, `0`, `""` are
falsy; arrays and objects are always truthy). -/
def jsTruthy : JValue → Bool
  | JValue.null => false
  | JValue.bool b => b
  | JValue.num n => n != 0
  | JValue.str s => s != ""
  | JValue.arr _ => true
  | JValue.obj _ => true

/-- Field lookup on a JSON object field list (first binding wins, as for the
objects produced by `JSON.parse`). -/
def jLookup (k : String) : List (String × JValue) → Option JValue
  | [] => none
  | (k2, v) :: rest => if k2 = k then some v else jLookup k rest

/-- Property access `j.k` as in JavaScript: `undefined` (here `none`) unless
`j` is an object with field `k`. -/
def jGet (j : JValue) (k : String) : Option JValue :=
  match j with
  | JValue.obj fs => jLookup k fs
  | _ => none

/-- String field access: `some s` iff field `k` is present and is a string. -/
def jGetStr (j : JValue) (k : String) : Option String :=
  match jGet j k with
  | some (JValue.str s) => some s
  | _ => none

/-- The JavaScript `x || d` default pattern applied to an optional field
value: the field's value when present and truthy, otherwise the default. -/
def jsOrVal (v : Option JValue) (d : JValue) : JValue :=
  match v with
  | some x => if jsTruthy x then x else d
  | none => d

mutual

/-- Serialization of a JSON value, modelling `JSON.stringify` on the values
the handlers pass to it (string escaping is not needed by any claim). -/
def jStringify : JValue → String
  | JValue.null => "null"
  | JValue.bool b => if b then "true" else "false"
  | JValue.num n => toString n
  | JValue.str s => "\"" ++ s ++ "\""
  | JValue.arr xs => "[" ++ jStringifyList xs ++ "]"
  | JValue.obj fs => "\x7b" ++ jStringifyFields fs ++ "\x7d"

def jStringifyList : List JValue → String
  | [] => ""
  | [x] => jStringify x
  | x :: xs => jStringify x ++ "," ++ jStringifyList xs

def jStringifyFields : List (String × JValue) → String
  | [] => ""
  | [(k, v)] => "\"" ++ k ++ "\":" ++ jStringify v
  | (k, v) :: fs => "\"" ++ k ++ "\":" ++ jStringify v ++ "," ++ jStringifyFields fs

end

/-- The `choices[0]?.message?.content || '{}'` pattern of the script and
vision handlers: a missing or empty content string falls back to the empty
JSON object text. -/
def orEmptyObj : Option String → String
  | none => "\x7b\x7d"
  | some s => if s = "" then "\x7b\x7d" else s

/-- A project row of the remote store (`projects` table). -/
structure Project where
  id : Nat
  user_id : Nat
  product_name : String
  product_desc : Option String
  status : String
deriving Repr, DecidableEq

/-- An image row of the remote store (`images` table). -/
structure ImageRec where
  id : Nat
  project_id : Nat
  section_id : Option Nat
  type : String
  r2_key : String
  orig_filename : String
deriving Repr, DecidableEq

/-- A script-section row of the remote store (`sections` table). -/
structure ScriptSection where
  id : Nat
  project_id : Nat
  order_index : Nat
  title : String
  subtitle : Option String
  description : Option String
  visual_guide : Option String
deriving Repr, DecidableEq

/-- A competitor-text row of the remote store (`competitor_text` table).  The
`text` field keeps the JSON value the handler stored (`result.text || ''`),
`analysis` the serialized key points. -/
structure CompetitorTextRec where
  id : Nat
  project_id : Nat
  text : JValue
  analysis : String

/-- A user row of the remote store (`users` table). -/
structure UserRec where
  id : Nat
  email : String
  password_hash : String
  name : Option String
  role : Option String
deriving Repr, DecidableEq

/-- The remote store state: one list per table plus a fresh-id counter for
rows the store creates. -/
structure DB where
  projects : List Project
  images : List ImageRec
  sections : List ScriptSection
  competitorTexts : List CompetitorTextRec
  users : List UserRec
  nextId : Nat

/-- Modelled from the spec: the remote store facade's `projects.getById`
(`src/unnamed/part_000`), id lookup in the projects table. -/
def projectsGetById (db : DB) (pid : Nat) : Option Project :=
  db.projects.find? (fun p => p.id == pid)

/-- Modelled from the spec: `projects.update` as the handlers use it — every
call site passes only a `status` field, so the facade updates the status of
the row with the given id. -/
def projectsUpdateStatus (db : DB) (pid : Nat) (s : String) : DB :=
  { db with projects := db.projects.map (fun p => if p.id == pid then { p with status := s } else p) }

/-- Modelled from the spec: `images.listByProject`, all image rows of a
project in table order. -/
def imagesListByProject (db : DB) (pid : Nat) : List ImageRec :=
  db.images.filter (fun img => img.project_id == pid)

/-- Modelled from the spec: `images.create`, appending a fresh row. -/
def imagesCreate (db : DB) (pid : Nat) (sid : Option Nat) (ty r2Key origFilename : String) :
    ImageRec × DB :=
  let img : ImageRec := ⟨db.nextId, pid, sid, ty, r2Key, origFilename⟩
  (img, { db with images := db.images ++ [img], nextId := db.nextId + 1 })

/-- Modelled from the spec: `images.delete`, removing the row with the given
id (no ownership information is available to the facade). -/
def imagesDelete (db : DB) (imageId : Nat) : DB :=
  { db with images := db.images.filter (fun img => !(img.id == imageId)) }

/-- Modelled from the spec: `sections.listByProject`, the project's planned
panels in order-index order (they are created in that order). -/
def sectionsListByProject (db : DB) (pid : Nat) : List ScriptSection :=
  db.sections.filter (fun s => s.project_id == pid)

/-- Modelled from the spec: the facade's `sections.update`; fields present in
the PUT body overwrite the row, absent ones are kept. -/
def sectionsUpdate (db : DB) (sid : Nat)
    (title subtitle description visualGuide : Option String) : DB :=
  { db with sections := db.sections.map (fun s =>
      if s.id == sid then
        { s with
          title := title.getD s.title,
          subtitle := match subtitle with | some v => some v | none => s.subtitle,
          description := match description with | some v => some v | none => s.description,
          visual_guide := match visualGuide with | some v => some v | none => s.visual_guide }
      else s) }

/-- Modelled from the spec: `competitorText.listByProject`. -/
def competitorTextListByProject (db : DB) (pid : Nat) : List CompetitorTextRec :=
  db.competitorTexts.filter (fun ct => ct.project_id == pid)

/-- Modelled from the spec: `competitorText.create`, appending a fresh row. -/
def competitorTextCreate (db : DB) (pid : Nat) (text : JValue) (analysis : String) :
    CompetitorTextRec × DB :=
  let r : CompetitorTextRec := ⟨db.nextId, pid, text, analysis⟩
  (r, { db with competitorTexts := db.competitorTexts ++ [r], nextId := db.nextId + 1 })

/-- The status order the spec names for a project's lifecycle. -/
def statusOrder : List String :=
  ["uploaded", "scripting", "scripted", "generating", "generated", "completed"]

/-- Position of a status label in the spec's order. -/
def statusIdx (s : String) : Nat :=
  statusOrder.findIdx (fun t => t == s)

/-- Generic route response: a JSON success body or an error status code. -/
inductive RouteOut (α : Type) where
  | ok (body : α) : RouteOut α
  | err (code : Nat) : RouteOut α
deriving Repr, DecidableEq

/-! ### Project routes (`src/src/routes/projects.ts`) -/

/-- POST `/projects` (projects.ts:23-47): authenticate, require a product
name, create the project with status `uploaded`. -/
def createProjectRoute (db : DB) (userId : Option Nat)
    (productName : String) (productDesc : Option String) : RouteOut Project × DB :=
  match userId with
  | none => (RouteOut.err 401, db)
  | some uid =>
    if productName == "" then (RouteOut.err 400, db)
    else
      let p : Project := ⟨db.nextId, uid, productName, productDesc, "uploaded"⟩
      (RouteOut.ok p, { db with projects := db.projects ++ [p], nextId := db.nextId + 1 })

/-- GET `/projects/:id` (projects.ts:50-85): authenticate, 404 when the
project does not exist, 403 when not owned, otherwise the project merged with
its images, sections and competitor text (the three reads are issued with
`Promise.all`; each reads only the store, so they are modelled as a tuple of
independent lookups). -/
def getProjectRoute (db : DB) (userId : Option Nat) (pid : Nat) :
    RouteOut (Project × List ImageRec × List ScriptSection × List CompetitorTextRec) :=
  match userId with
  | none => RouteOut.err 401
  | some uid =>
    match projectsGetById db pid with
    | none => RouteOut.err 404
    | some p =>
      if p.user_id == uid then
        RouteOut.ok (p, imagesListByProject db pid, sectionsListByProject db pid,
          competitorTextListByProject db pid)
      else RouteOut.err 403

/-! ### Image routes (`src/src/routes/images.ts`) -/

/-- A file as delivered by multer's memory storage. -/
structure UploadFile where
  originalname : String
  mimetype : String
  size : Nat
deriving Repr, DecidableEq

/-- The configured multer file-size limit (images.ts:13): 10 MB. -/
def uploadFileSizeLimit : Nat := 10 * 1024 * 1024

/-- The configured multer file filter (images.ts:15-21): only MIME types
starting with `image/`. -/
def uploadFileFilterAccepts (f : UploadFile) : Bool :=
  f.mimetype.startsWith "image/"

/-- The multer middleware gate as configured in images.ts:10-25
(`upload.array('files', 20)` with the limits above): per multer's documented
behavior the request is rejected before the handler runs when more than 20
files arrive, a file exceeds the size limit, or the file filter refuses a
file. -/
def multerAccepts (files : List UploadFile) : Bool :=
  decide (files.length ≤ 20) &&
    files.all (fun f => decide (f.size ≤ uploadFileSizeLimit) && uploadFileFilterAccepts f)

/-- Upload route response: the middleware can fail the request before the
handler runs. -/
inductive UploadOut where
  | ok (imgs : List ImageRec) : UploadOut
  | middlewareError : UploadOut
  | err (code : Nat) : UploadOut
deriving Repr, DecidableEq

/-- The upload handler's loop (images.ts:47-67): store each file and append
its image row; `uuidKey i` stands for the uuid-based object key of the i-th
file. -/
def uploadLoop (pid : Nat) (ty : String) (uuidKey : Nat → String) :
    Nat → List UploadFile → DB → List ImageRec × DB
  | _, [], db => ([], db)
  | i, f :: rest, db =>
    let (img, db1) := imagesCreate db pid none ty (uuidKey i) f.originalname
    let (imgs, db2) := uploadLoop pid ty uuidKey (i + 1) rest db1
    (img :: imgs, db2)

/-- POST `/images/:projectId/upload` (images.ts:25-74): multer gate, then
authenticate, verify ownership, 400 on an empty file list, then create one
image row per file with the body's `type` (default `product_input`). -/
def uploadImagesRoute (db : DB) (userId : Option Nat) (pid : Nat)
    (ty : Option String) (files : List UploadFile) (uuidKey : Nat → String) :
    UploadOut × DB :=
  if !(multerAccepts files) then (UploadOut.middlewareError, db)
  else
    match userId with
    | none => (UploadOut.err 401, db)
    | some uid =>
      match projectsGetById db pid with
      | none => (UploadOut.err 403, db)
      | some p =>
        if p.user_id == uid then
          if files.isEmpty then (UploadOut.err 400, db)
          else
            let (imgs, db1) := uploadLoop pid (ty.getD "product_input") uuidKey 0 files db
            (UploadOut.ok imgs, db1)
        else (UploadOut.err 403, db)

/-- DELETE `/images/:imageId` (images.ts:107-123): authenticate and delete
the row.  The handler performs no ownership verification — its own comment
at images.ts:115 records that the check on the image's project owner is
skipped ("简化处理直接删除"). -/
def deleteImageRoute (db : DB) (userId : Option Nat) (imageId : Nat) :
    RouteOut Unit × DB :=
  match userId with
  | none => (RouteOut.err 401, db)
  | some _ => (RouteOut.ok (), imagesDelete db imageId)

/-! ### Script routes (`src/src/routes/scripts.ts`) -/

/-- The `!scriptData.sections || !Array.isArray(scriptData.sections)` check
(scripts.ts:94): the sections field's element list, when the parsed value is
an object whose `sections` field is an array (arrays are always truthy). -/
def sectionsField (j : JValue) : Option (List JValue) :=
  match jGet j "sections" with
  | some (JValue.arr xs) => some xs
  | _ => none

/-- Modelled from the spec: the facade's `sections.batchCreate` — one section
row per JSON element, in order, with consecutive order indices (the spec's
"ordered sections" with an order index). -/
def sectionsBatchLoop (pid : Nat) : Nat → List JValue → DB → List ScriptSection × DB
  | _, [], db => ([], db)
  | idx, j :: rest, db =>
    let s : ScriptSection :=
      ⟨db.nextId, pid, idx, (jGetStr j "title").getD "", jGetStr j "subtitle",
        jGetStr j "description", jGetStr j "visualGuide"⟩
    let db1 : DB := { db with sections := db.sections ++ [s], nextId := db.nextId + 1 }
    let (ss, db2) := sectionsBatchLoop pid (idx + 1) rest db1
    (s :: ss, db2)

/-- Modelled from the spec: `sections.batchCreate` entry point. -/
def sectionsBatchCreate (db : DB) (pid : Nat) (xs : List JValue) :
    List ScriptSection × DB :=
  sectionsBatchLoop pid 0 xs db

/-- POST `/scripts/:projectId/generate` (scripts.ts:18-112): authenticate,
verify ownership, set status `scripting`, call the text model (`aiResult` is
the call's outcome: an exception or the returned content), parse the reply
(`parseJSON` is the JS runtime's parser), require an array `sections` field,
batch-create the sections and set status `scripted`.  The prompt built from
the project and competitor texts does not influence control flow and is not
modelled; the model's reply is the environment input. -/
def scriptGenerateRoute (parseJSON : String → Option JValue) (db : DB)
    (userId : Option Nat) (pid : Nat) (aiResult : Except Unit (Option String)) :
    RouteOut (List ScriptSection) × DB :=
  match userId with
  | none => (RouteOut.err 401, db)
  | some uid =>
    match projectsGetById db pid with
    | none => (RouteOut.err 403, db)
    | some p =>
      if p.user_id == uid then
        let db1 := projectsUpdateStatus db pid "scripting"
        match aiResult with
        | Except.error _ => (RouteOut.err 500, db1)
        | Except.ok content =>
          match parseJSON (orEmptyObj content) with
          | none => (RouteOut.err 500, db1)
          | some j =>
            match sectionsField j with
            | none => (RouteOut.err 500, db1)
            | some xs =>
              let (saved, db2) := sectionsBatchCreate db1 pid xs
              (RouteOut.ok saved, projectsUpdateStatus db2 pid "scripted")
      else (RouteOut.err 403, db)

/-- PUT `/scripts/section/:sectionId` (scripts.ts:138-153): authenticate and
update the section row from the body.  No project is fetched and no
ownership is verified before the update. -/
def updateSectionRoute (db : DB) (userId : Option Nat) (sectionId : Nat)
    (title subtitle description visualGuide : Option String) :
    RouteOut Unit × DB :=
  match userId with
  | none => (RouteOut.err 401, db)
  | some _ =>
    (RouteOut.ok (), sectionsUpdate db sectionId title subtitle description visualGuide)

/-- Per-image outcome of the vision analysis in the extract-text loop: the
chat call's thrown error or returned content, composed with `JSON.parse`
(which throws inside the same per-image `try`). -/
def visionParsed (parseJSON : String → Option JValue)
    (visionContent : Nat → Except Unit (Option String)) (img : ImageRec) :
    Option JValue :=
  match visionContent img.id with
  | Except.error _ => none
  | Except.ok content => parseJSON (orEmptyObj content)

/-- The extract-text loop (scripts.ts:245-284): analyze each competitor
image; on a thrown call or parse error the image is skipped and the loop
continues; on success one competitor-text row is created with
`result.text || ''` and `JSON.stringify(result.keyPoints || [])`. -/
def extractLoop (parseJSON : String → Option JValue)
    (visionContent : Nat → Except Unit (Option String)) (pid : Nat) :
    List ImageRec → DB → List CompetitorTextRec × DB
  | [], db => ([], db)
  | img :: rest, db =>
    match visionParsed parseJSON visionContent img with
    | none => extractLoop parseJSON visionContent pid rest db
    | some j =>
      let (r, db1) := competitorTextCreate db pid
        (jsOrVal (jGet j "text") (JValue.str ""))
        (jStringify (jsOrVal (jGet j "keyPoints") (JValue.arr [])))
      let (rs, db2) := extractLoop parseJSON visionContent pid rest db1
      (r :: rs, db2)

/-- POST `/scripts/:projectId/extract-text` (scripts.ts:220-294):
authenticate, verify ownership, 400 when the project has no
`competitor_input` images, otherwise run the extraction loop and return the
created rows. -/
def extractTextRoute (parseJSON : String → Option JValue) (db : DB)
    (userId : Option Nat) (pid : Nat)
    (visionContent : Nat → Except Unit (Option String)) :
    RouteOut (List CompetitorTextRec) × DB :=
  match userId with
  | none => (RouteOut.err 401, db)
  | some uid =>
    match projectsGetById db pid with
    | none => (RouteOut.err 403, db)
    | some p =>
      if p.user_id == uid then
        let comp := (imagesListByProject db pid).filter (fun img => img.type == "competitor_input")
        if comp.isEmpty then (RouteOut.err 400, db)
        else
          let (made, db1) := extractLoop parseJSON visionContent pid comp db
          (RouteOut.ok made, db1)
      else (RouteOut.err 403, db)

/-! ### Generate routes (`src/src/routes/generate.ts`) -/

/-- A model call made by `generateImageWithGemini`: the Gemini chat
completion or the `gpt-image-1` images API. -/
inductive Attempt where
  | chatGemini : Attempt
  | imagesGpt : Attempt
deriving Repr, DecidableEq

/-- Environment of one `generateImageWithGemini` invocation: the outcome of
the chat-completions call (throw, or the returned message content), the JS
regex extraction of a base64 payload from that content
(`content.includes('base64')` + the data-URL match, generate.ts:39-44), and
the outcomes of the two possible `images.generate` calls. -/
structure ImageGenEnv where
  chat : Except Unit (Option String)
  extractBase64 : String → Option String
  imagesGen : Except Unit (Option String)
  imagesGenFallback : Except Unit (Option String)

/-- `generateImageWithGemini` (generate.ts:19-83).  Returns the base64 image
payload (the `Buffer.from` decode is modelled as the payload itself) and the
list of model calls issued, in order: chat first; when the chat reply holds
no image, one `gpt-image-1` images call; when anything in the `try` throws,
one `gpt-image-1` fallback call in the `catch`.  The function itself never
throws — every failure path returns `none`. -/
def generateImageWithGemini (env : ImageGenEnv) : Option String × List Attempt :=
  match env.chat with
  | Except.error _ =>
    match env.imagesGenFallback with
    | Except.error _ => (none, [Attempt.chatGemini, Attempt.imagesGpt])
    | Except.ok b64 => (b64, [Attempt.chatGemini, Attempt.imagesGpt])
  | Except.ok content =>
    match content.bind env.extractBase64 with
    | some b => (some b, [Attempt.chatGemini])
    | none =>
      match env.imagesGen with
      | Except.error _ =>
        match env.imagesGenFallback with
        | Except.error _ => (none, [Attempt.chatGemini, Attempt.imagesGpt, Attempt.imagesGpt])
        | Except.ok b64 => (b64, [Attempt.chatGemini, Attempt.imagesGpt, Attempt.imagesGpt])
      | Except.ok b64 => (b64, [Attempt.chatGemini, Attempt.imagesGpt])

/-- The batch-generation loop (generate.ts:113-155): for each section, run
`generateImageWithGemini` (its outcome per section id is `genOutcome`; the
function never throws, so a `none` outcome skips the section and the loop
continues — the inner `try` also swallows storage errors, which likewise
skip the section); on success upload the image and append an image row.
`now` stands for `Date.now()` in the object key. -/
def genLoop (genOutcome : Nat → Option String) (pid now : Nat) :
    List ScriptSection → DB → List ImageRec × DB
  | [], db => ([], db)
  | s :: rest, db =>
    match genOutcome s.id with
    | none => genLoop genOutcome pid now rest db
    | some _b =>
      let r2Key := "projects/" ++ toString pid ++ "/generated/" ++ toString s.id ++ "_" ++
        toString now ++ ".png"
      let (img, db1) := imagesCreate db pid (some s.id) "generated_output" r2Key
        ("section_" ++ toString (s.order_index + 1) ++ ".png")
      let (imgs, db2) := genLoop genOutcome pid now rest db1
      (img :: imgs, db2)

/-- POST `/generate/:projectId/images` (generate.ts:86-172): authenticate,
verify ownership, set status `generating` (before the section check), 400
when the project has no sections, otherwise run the loop and set status
`generated` — unconditionally, whatever the per-section outcomes were. -/
def generateImagesRoute (db : DB) (userId : Option Nat) (pid : Nat)
    (genOutcome : Nat → Option String) (now : Nat) :
    RouteOut (List ImageRec) × DB :=
  match userId with
  | none => (RouteOut.err 401, db)
  | some uid =>
    match projectsGetById db pid with
    | none => (RouteOut.err 403, db)
    | some p =>
      if p.user_id == uid then
        let db1 := projectsUpdateStatus db pid "generating"
        let secs := sectionsListByProject db1 pid
        if secs.isEmpty then (RouteOut.err 400, db1)
        else
          let (imgs, db2) := genLoop genOutcome pid now secs db1
          (RouteOut.ok imgs, projectsUpdateStatus db2 pid "generated")
      else (RouteOut.err 403, db)

/-- One entry of the streamed zip archive. -/
structure ZipEntry where
  name : String
  content : String
deriving Repr, DecidableEq

/-- The archive image loop (generate.ts:282-296): for each generated image,
indexed from 0 in list order, download its bytes (`fetchImg` per image id);
a failed download is caught and the entry skipped, while the index keeps
advancing with the `for` loop. -/
def zipLoop (fetchImg : Nat → Except Unit String) :
    Nat → List ImageRec → List ZipEntry
  | _, [] => []
  | i, img :: rest =>
    match fetchImg img.id with
    | Except.error _ => zipLoop fetchImg (i + 1) rest
    | Except.ok bytes =>
      ⟨"detail_" ++ toString (i + 1) ++ ".png", bytes⟩ :: zipLoop fetchImg (i + 1) rest

/-- One block of `script.md` (generate.ts:302-308), for the section at
position `idx` of the list. -/
def sectionBlock (idx : Nat) (s : ScriptSection) : String :=
  "## 第" ++ toString (idx + 1) ++ "张图\n\n" ++
  "**主标题：** " ++ s.title ++ "\n\n" ++
  "**副标题：** " ++ s.subtitle.getD "" ++ "\n\n" ++
  "**描述：** " ++ s.description.getD "" ++ "\n\n" ++
  "---\n\n"

/-- The `script.md` content (generate.ts:299-308). -/
def scriptMdFor (p : Project) (secs : List ScriptSection) : String :=
  "# " ++ p.product_name ++ " - 详情页文案\n\n" ++
    String.join ((secs.enum).map (fun e => sectionBlock e.1 e.2))

/-- GET `/generate/:projectId/download` (generate.ts:251-321): authenticate,
verify ownership, 400 when the project has no `generated_output` images
(nothing is streamed and nothing is written), otherwise stream the archive —
the image entries in index order followed by `script.md` — and set status
`completed` after the archive is finalized. -/
def downloadRoute (db : DB) (userId : Option Nat) (pid : Nat)
    (fetchImg : Nat → Except Unit String) :
    RouteOut (List ZipEntry) × DB :=
  match userId with
  | none => (RouteOut.err 401, db)
  | some uid =>
    match projectsGetById db pid with
    | none => (RouteOut.err 403, db)
    | some p =>
      if p.user_id == uid then
        let gen := (imagesListByProject db pid).filter (fun img => img.type == "generated_output")
        if gen.isEmpty then (RouteOut.err 400, db)
        else
          let entries := zipLoop fetchImg 0 gen
          let secs := sectionsListByProject db pid
          (RouteOut.ok (entries ++ [⟨"script.md", scriptMdFor p secs⟩]),
            projectsUpdateStatus db pid "completed")
      else (RouteOut.err 403, db)

/-! ### Auth routes (`src/unnamed/part_001`) -/

/-- Environment of the auth routes: bcrypt's hash (the generated salt is
folded into the function) and compare, and the JWT issued by
`generateToken` (the auth middleware is not under src/; only the token's
existence matters to the claims). -/
structure AuthEnv where
  bcryptHash : String → String
  bcryptCompare : String → String → Bool
  tokenFor : Nat → String

/-- Modelled from the spec: the remote store facade's `users.login`, a
lookup of the user row by email. -/
def usersFindByEmail (db : DB) (email : String) : Option UserRec :=
  db.users.find? (fun u => u.email == email)

/-- POST `/auth/register` (part_001:9-54): 400 on a missing email or
password, 400 when a user with the email already exists (nothing stored),
otherwise create the user with `password_hash := bcrypt.hash(password)` —
the plaintext password is sent to the store in no field — and return the
user with a token.  A thrown lookup on an absent user is caught and
registration proceeds, so the lookup is modelled as an option. -/
def registerRoute (env : AuthEnv) (db : DB)
    (email password : String) (name : Option String) :
    RouteOut (UserRec × String) × DB :=
  if email == "" || password == "" then (RouteOut.err 400, db)
  else
    match usersFindByEmail db email with
    | some _ => (RouteOut.err 400, db)
    | none =>
      let u : UserRec := ⟨db.nextId, email, env.bcryptHash password, name, none⟩
      (RouteOut.ok (u, env.tokenFor u.id),
        { db with users := db.users ++ [u], nextId := db.nextId + 1 })

/-- POST `/auth/login` (part_001:57-98): 400 on a missing email or password,
401 when no user has the email, 401 when `bcrypt.compare` rejects the
password against the stored hash, otherwise the user and a token. -/
def loginRoute (env : AuthEnv) (db : DB) (email password : String) :
    RouteOut (UserRec × String) :=
  if email == "" || password == "" then RouteOut.err 400
  else
    match usersFindByEmail db email with
    | none => RouteOut.err 401
    | some u =>
      if env.bcryptCompare password u.password_hash then
        RouteOut.ok (u, env.tokenFor u.id)
      else RouteOut.err 401

/-! ### Store lemmas -/

theorem isEmpty_false_of_ne {α : Type} (l : List α) (h : ¬ l = []) : l.isEmpty = false := by
  cases l with
  | nil => exact absurd rfl h
  | cons a t => rfl

theorem find?_status_map (l : List Project) (pid : Nat) (s : String) (p : Project)
    (h : l.find? (fun q => q.id == pid) = some p) :
    (l.map (fun q => if q.id == pid then { q with status := s } else q)).find?
      (fun q => q.id == pid) = some { p with status := s } := by
  induction l with
  | nil => simp at h
  | cons a t ih =>
    by_cases hc : (a.id == pid) = true
    · rw [List.find?_cons_of_pos (p := fun (q : Project) => q.id == pid) t hc] at h
      have hap : a = p := by injection h
      subst hap
      simp only [List.map_cons, hc, if_true]
      exact List.find?_cons_of_pos (p := fun (q : Project) => q.id == pid) _ hc
    · have hc2 : ¬ ((fun (q : Project) => q.id == pid) a = true) := hc
      rw [List.find?_cons_of_neg (p := fun (q : Project) => q.id == pid) t hc2] at h
      simp only [List.map_cons, if_neg hc]
      rw [List.find?_cons_of_neg (p := fun (q : Project) => q.id == pid) _ hc2]
      exact ih h

theorem projectsGetById_updateStatus (db : DB) (pid : Nat) (s : String) (p : Project)
    (h : projectsGetById db pid = some p) :
    projectsGetById (projectsUpdateStatus db pid s) pid = some { p with status := s } :=
  find?_status_map db.projects pid s p h

theorem projectsUpdateStatus_sections (db : DB) (pid : Nat) (s : String) :
    (projectsUpdateStatus db pid s).sections = db.sections := rfl

theorem projectsUpdateStatus_images (db : DB) (pid : Nat) (s : String) :
    (projectsUpdateStatus db pid s).images = db.images := rfl

theorem sectionsBatchLoop_projects (pid : Nat) :
    ∀ (xs : List JValue) (idx : Nat) (db : DB),
    ((sectionsBatchLoop pid idx xs db).2).projects = db.projects := by
  intro xs
  induction xs with
  | nil => intro idx db; rfl
  | cons j rest ih =>
    intro idx db
    unfold sectionsBatchLoop
    simp [ih]

theorem genLoop_projects (g : Nat → Option String) (pid now : Nat) :
    ∀ (l : List ScriptSection) (db : DB),
    ((genLoop g pid now l db).2).projects = db.projects := by
  intro l
  induction l with
  | nil => intro db; rfl
  | cons s rest ih =>
    intro db
    unfold genLoop
    cases hg : g s.id with
    | none => exact ih db
    | some b => simp [imagesCreate, ih]

theorem genLoop_map_section_id (g : Nat → Option String) (pid now : Nat) :
    ∀ (l : List ScriptSection) (db : DB),
    ((genLoop g pid now l db).1).map (fun i => i.section_id)
      = (l.filter (fun s => (g s.id).isSome)).map (fun s => some s.id) := by
  intro l
  induction l with
  | nil => intro db; rfl
  | cons s rest ih =>
    intro db
    unfold genLoop
    cases hg : g s.id with
    | none => simp [hg, ih]
    | some b => simp [hg, imagesCreate, ih]

theorem extractLoop_map (pj : String → Option JValue)
    (vision : Nat → Except Unit (Option String)) (pid : Nat) :
    ∀ (l : List ImageRec) (db : DB),
    ((extractLoop pj vision pid l db).1).map (fun r => (r.project_id, r.text, r.analysis))
      = (l.filterMap (visionParsed pj vision)).map (fun j =>
          (pid, jsOrVal (jGet j "text") (JValue.str ""),
            jStringify (jsOrVal (jGet j "keyPoints") (JValue.arr [])))) := by
  intro l
  induction l with
  | nil => intro db; rfl
  | cons img rest ih =>
    intro db
    unfold extractLoop
    cases hv : visionParsed pj vision img with
    | none => simp [hv, ih]
    | some j => simp [hv, competitorTextCreate, ih]

theorem extractLoop_texts (pj : String → Option JValue)
    (vision : Nat → Except Unit (Option String)) (pid : Nat) :
    ∀ (l : List ImageRec) (db : DB),
    ((extractLoop pj vision pid l db).2).competitorTexts
      = db.competitorTexts ++ (extractLoop pj vision pid l db).1 := by
  intro l
  induction l with
  | nil => intro db; simp [extractLoop]
  | cons img rest ih =>
    intro db
    unfold extractLoop
    cases hv : visionParsed pj vision img with
    | none => simp [hv, ih]
    | some j => simp [hv, competitorTextCreate, ih]

theorem zipLoop_enumFrom (f : Nat → Except Unit String) :
    ∀ (l : List ImageRec) (i : Nat),
    zipLoop f i l = (List.enumFrom i l).filterMap (fun e =>
      match f e.2.id with
      | Except.ok b => some ⟨"detail_" ++ toString (e.1 + 1) ++ ".png", b⟩
      | Except.error _ => none) := by
  intro l
  induction l with
  | nil => intro i; rfl
  | cons img rest ih =>
    intro i
    unfold zipLoop
    cases hf : f img.id with
    | error e => simp [List.enumFrom, hf, ih]
    | ok b => simp [List.enumFrom, hf, ih]

/-! ### Claim C1 -/

/-- A store with a project owned by user 1, one of its images and one of its
sections; requests below come from user 2. -/
def dbC1 : DB :=
  ⟨[⟨1, 1, "p", none, "uploaded"⟩], [⟨10, 1, none, "product_input", "k", "f"⟩],
    [⟨5, 1, 0, "t", none, none, none⟩], [], [], 100⟩

/-- C1: the claim that every route verifies project ownership before acting
fails on the code: user 2 deletes image 10 of user 1's project (the route
returns success and the row is gone) and updates section 5 of user 1's
project, with no project fetched and no 403/404; the handlers skip the
ownership check their own comment (images.ts:115) says should happen. -/
theorem c1_delete_update_without_ownership :
    projectsGetById dbC1 1 = some ⟨1, 1, "p", none, "uploaded"⟩ ∧
    (deleteImageRoute dbC1 (some 2) 10).1 = RouteOut.ok () ∧
    ((deleteImageRoute dbC1 (some 2) 10).2).images = [] ∧
    (updateSectionRoute dbC1 (some 2) 5 (some "hacked") none none none).1 = RouteOut.ok () ∧
    ((updateSectionRoute dbC1 (some 2) 5 (some "hacked") none none none).2).sections
      = [⟨5, 1, 0, "hacked", none, none, none⟩] :=
  ⟨rfl, rfl, rfl, rfl, rfl⟩

/-! ### Claim C2 -/

/-- A store whose only project has already reached status `completed`. -/
def dbC2 : DB := ⟨[⟨1, 1, "p", none, "completed"⟩], [], [], [], [], 50⟩

/-- A parser standing for `JSON.parse` on the concrete model reply used in
the C2 counterexample: an object with a one-element `sections` array. -/
def pjC2 : String → Option JValue :=
  fun _ => some (JValue.obj [("sections", JValue.arr [JValue.obj [("title", JValue.str "t")]])])

/-- C2 counterexample: a successful execution of script generation on a
`completed` project moves its status backwards to `scripted` — the routes
write their fixed labels without checking the current status. -/
theorem c2_status_moves_backwards :
    projectsGetById dbC2 1 = some ⟨1, 1, "p", none, "completed"⟩ ∧
    (scriptGenerateRoute pjC2 dbC2 (some 1) 1 (Except.ok (some "x"))).1
      = RouteOut.ok [⟨50, 1, 0, "t", none, none, none⟩] ∧
    projectsGetById (scriptGenerateRoute pjC2 dbC2 (some 1) 1 (Except.ok (some "x"))).2 1
      = some ⟨1, 1, "p", none, "scripted"⟩ ∧
    statusIdx "scripted" < statusIdx "completed" :=
  ⟨rfl, rfl, rfl, by decide⟩

/-- C2 as amended: along a single in-order pass the status only advances —
creation sets `uploaded`; script generation run on an `uploaded` project
ends at `scripted` (via `scripting`); batch image generation run on a
`scripted` project with sections ends at `generated` (via `generating`);
archive download run on a `generated` project with generated images ends at
`completed` — each step strictly forward in the order; but the routes write
these labels unconditionally, so (as the counterexample shows) re-running an
earlier route on a later-stage project moves the status backwards. -/
theorem c2_forward_on_first_pass :
    (∀ (db : DB) (uid : Nat) (name : String) (desc : Option String),
      ¬ name = "" →
      ∃ p db2, createProjectRoute db (some uid) name desc = (RouteOut.ok p, db2) ∧
        p.status = "uploaded") ∧
    (∀ (pj : String → Option JValue) (db : DB) (uid pid : Nat)
        (content : Option String) (p : Project) (j : JValue) (xs : List JValue),
      projectsGetById db pid = some p → p.user_id = uid → p.status = "uploaded" →
      pj (orEmptyObj content) = some j → sectionsField j = some xs →
      ∃ ss db2,
        scriptGenerateRoute pj db (some uid) pid (Except.ok content) = (RouteOut.ok ss, db2) ∧
        projectsGetById db2 pid = some { p with status := "scripted" } ∧
        statusIdx p.status < statusIdx "scripted") ∧
    (∀ (db : DB) (uid pid now : Nat) (g : Nat → Option String) (p : Project),
      projectsGetById db pid = some p → p.user_id = uid → p.status = "scripted" →
      ¬ sectionsListByProject db pid = [] →
      ∃ imgs db2,
        generateImagesRoute db (some uid) pid g now = (RouteOut.ok imgs, db2) ∧
        projectsGetById db2 pid = some { p with status := "generated" } ∧
        statusIdx p.status < statusIdx "generated") ∧
    (∀ (db : DB) (uid pid : Nat) (f : Nat → Except Unit String) (p : Project),
      projectsGetById db pid = some p → p.user_id = uid → p.status = "generated" →
      ¬ (imagesListByProject db pid).filter (fun img => img.type == "generated_output") = [] →
      ∃ entries db2,
        downloadRoute db (some uid) pid f = (RouteOut.ok entries, db2) ∧
        projectsGetById db2 pid = some { p with status := "completed" } ∧
        statusIdx p.status < statusIdx "completed") := by
  refine ⟨?_, ?_, ?_, ?_⟩
  · intro db uid name desc hname
    have hb : (name == "") = false := by
      simp [hname]
    refine ⟨⟨db.nextId, uid, name, desc, "uploaded"⟩,
      (createProjectRoute db (some uid) name desc).2, ?_, rfl⟩
    simp [createProjectRoute, hb]
  · intro pj db uid pid content p j xs hget hown hst hpj hsf
    have hbeq : (p.user_id == uid) = true := by simp [hown]
    refine ⟨(sectionsBatchCreate (projectsUpdateStatus db pid "scripting") pid xs).1,
      projectsUpdateStatus
        (sectionsBatchCreate (projectsUpdateStatus db pid "scripting") pid xs).2 pid "scripted",
      ?_, ?_, ?_⟩
    · simp only [scriptGenerateRoute, hget, hbeq, if_true, hpj, hsf, sectionsBatchCreate]
    · have h1 : projectsGetById (projectsUpdateStatus db pid "scripting") pid
          = some { p with status := "scripting" } :=
        projectsGetById_updateStatus db pid "scripting" p hget
      have h2 : projectsGetById
          (sectionsBatchCreate (projectsUpdateStatus db pid "scripting") pid xs).2 pid
          = some { p with status := "scripting" } := by
        unfold projectsGetById at h1 ⊢
        rw [sectionsBatchCreate, sectionsBatchLoop_projects]
        exact h1
      exact projectsGetById_updateStatus _ pid "scripted" { p with status := "scripting" } h2
    · rw [hst]; decide
  · intro db uid pid now g p hget hown hst hsecs
    have hbeq : (p.user_id == uid) = true := by simp [hown]
    have hne : (sectionsListByProject (projectsUpdateStatus db pid "generating") pid).isEmpty
        = false := isEmpty_false_of_ne _ hsecs
    refine ⟨(genLoop g pid now
        (sectionsListByProject (projectsUpdateStatus db pid "generating") pid)
        (projectsUpdateStatus db pid "generating")).1,
      projectsUpdateStatus (genLoop g pid now
        (sectionsListByProject (projectsUpdateStatus db pid "generating") pid)
        (projectsUpdateStatus db pid "generating")).2 pid "generated", ?_, ?_, ?_⟩
    · simp only [generateImagesRoute, hget, hbeq, if_true, hne, Bool.false_eq_true, if_false]
    · have h1 : projectsGetById (projectsUpdateStatus db pid "generating") pid
          = some { p with status := "generating" } :=
        projectsGetById_updateStatus db pid "generating" p hget
      have h2 : projectsGetById
          (genLoop g pid now (sectionsListByProject (projectsUpdateStatus db pid "generating") pid)
            (projectsUpdateStatus db pid "generating")).2 pid
          = some { p with status := "generating" } := by
        unfold projectsGetById at h1 ⊢
        rw [genLoop_projects]
        exact h1
      exact projectsGetById_updateStatus _ pid "generated" { p with status := "generating" } h2
    · rw [hst]; decide
  · intro db uid pid f p hget hown hst hgen
    have hbeq : (p.user_id == uid) = true := by simp [hown]
    have hne : ((imagesListByProject db pid).filter
        (fun img => img.type == "generated_output")).isEmpty = false :=
      isEmpty_false_of_ne _ hgen
    refine ⟨zipLoop f 0 ((imagesListByProject db pid).filter
        (fun img => img.type == "generated_output"))
        ++ [⟨"script.md", scriptMdFor p (sectionsListByProject db pid)⟩],
      projectsUpdateStatus db pid "completed", ?_, ?_, ?_⟩
    · simp only [downloadRoute, hget, hbeq, if_true, hne, Bool.false_eq_true, if_false]
    · exact projectsGetById_updateStatus db pid "completed" p hget
    · rw [hst]; decide

/-- A fresh store for the C2 witness. -/
def dbW2 : DB := ⟨[], [], [], [], [], 7⟩

/-- A store with an `uploaded` project for the C2 witness. -/
def dbW2a : DB := ⟨[⟨1, 1, "p", none, "uploaded"⟩], [], [], [], [], 9⟩

/-- A store with a `scripted` project and one section for the C2 witness. -/
def dbW2b : DB :=
  ⟨[⟨1, 1, "p", none, "scripted"⟩], [], [⟨5, 1, 0, "t", none, none, none⟩], [], [], 9⟩

/-- A store with a `generated` project and one generated image for the C2
witness. -/
def dbW2c : DB :=
  ⟨[⟨1, 1, "p", none, "generated"⟩], [⟨10, 1, none, "generated_output", "k", "f"⟩], [], [], [], 9⟩

/-- Witness for the amended C2 on concrete stores: a fresh project is
created `uploaded`; script generation on an `uploaded` project ends
`scripted`; batch generation on a `scripted` project with a section ends
`generated`; download on a `generated` project with a generated image ends
`completed`. -/
theorem c2_forward_on_first_pass_witness :
    (∃ p db2, createProjectRoute dbW2 (some 1) "n" none
        = (RouteOut.ok p, db2) ∧ p.status = "uploaded") ∧
    (∃ ss db2, scriptGenerateRoute pjC2 dbW2a
        (some 1) 1 (Except.ok (some "x")) = (RouteOut.ok ss, db2) ∧
      projectsGetById db2 1 = some ⟨1, 1, "p", none, "scripted"⟩ ∧
      statusIdx "uploaded" < statusIdx "scripted") ∧
    (∃ imgs db2, generateImagesRoute dbW2b
        (some 1) 1 (fun _ => none) 0 = (RouteOut.ok imgs, db2) ∧
      projectsGetById db2 1 = some ⟨1, 1, "p", none, "generated"⟩ ∧
      statusIdx "scripted" < statusIdx "generated") ∧
    (∃ entries db2, downloadRoute dbW2c (some 1) 1 (fun _ => Except.ok "bytes")
        = (RouteOut.ok entries, db2) ∧
      projectsGetById db2 1 = some ⟨1, 1, "p", none, "completed"⟩ ∧
      statusIdx "generated" < statusIdx "completed") := by
  obtain ⟨h0, h1, h2, h3⟩ := c2_forward_on_first_pass
  refine ⟨h0 dbW2 1 "n" none (by decide), ?_, ?_, ?_⟩
  · exact h1 pjC2 dbW2a 1 1 (some "x") ⟨1, 1, "p", none, "uploaded"⟩
      (JValue.obj [("sections", JValue.arr [JValue.obj [("title", JValue.str "t")]])])
      [JValue.obj [("title", JValue.str "t")]] rfl rfl rfl rfl rfl
  · exact h2 dbW2b 1 1 0 (fun _ => none) ⟨1, 1, "p", none, "scripted"⟩ rfl rfl rfl (by decide)
  · exact h3 dbW2c 1 1 (fun _ => Except.ok "bytes") ⟨1, 1, "p", none, "generated"⟩ rfl rfl rfl
      (by decide)

/-! ### Claim C3 -/

/-- An invocation in which the Gemini chat call throws and the fallback
`gpt-image-1` call also throws. -/
def envC3 : ImageGenEnv := ⟨Except.error (), fun _ => none, Except.error (), Except.error ()⟩

/-- C3 counterexample: when the image model call fails, the handler does
issue a second generation attempt — the failing chat call is followed by a
`gpt-image-1` images call before the failure (`none`) is reported. -/
theorem c3_second_attempt_issued :
    (generateImageWithGemini envC3).1 = none ∧
    (generateImageWithGemini envC3).2 = [Attempt.chatGemini, Attempt.imagesGpt] ∧
    (generateImageWithGemini envC3).2.length = 2 :=
  ⟨rfl, rfl, rfl⟩

/-- C3 as amended: there is no retry loop or backoff — at most three model
calls are ever made (one chat call, at most two `gpt-image-1` calls) — but a
failed chat call is followed by exactly one `gpt-image-1` fallback attempt,
and only when that fallback also fails (throws or yields no image) is the
failure reported. -/
theorem c3_single_fallback_no_retry (env : ImageGenEnv) :
    ((generateImageWithGemini env).2.count Attempt.chatGemini = 1 ∧
     (generateImageWithGemini env).2.count Attempt.imagesGpt ≤ 2) ∧
    (env.chat = Except.error () →
      (generateImageWithGemini env).2 = [Attempt.chatGemini, Attempt.imagesGpt] ∧
      ((generateImageWithGemini env).1 = none ↔
        env.imagesGenFallback = Except.error () ∨ env.imagesGenFallback = Except.ok none)) := by
  obtain ⟨c, ex, ig, igf⟩ := env
  cases c with
  | error e =>
    cases igf with
    | error e2 =>
      have ha : (generateImageWithGemini ⟨Except.error e, ex, ig, Except.error e2⟩).2
          = [Attempt.chatGemini, Attempt.imagesGpt] := rfl
      refine ⟨⟨by rw [ha]; decide, by rw [ha]; decide⟩, fun _ => ⟨ha, ?_⟩⟩
      simp [generateImageWithGemini]
    | ok b64 =>
      have ha : (generateImageWithGemini ⟨Except.error e, ex, ig, Except.ok b64⟩).2
          = [Attempt.chatGemini, Attempt.imagesGpt] := rfl
      refine ⟨⟨by rw [ha]; decide, by rw [ha]; decide⟩, fun _ => ⟨ha, ?_⟩⟩
      cases b64 with
      | none => simp [generateImageWithGemini]
      | some b => simp [generateImageWithGemini]
  | ok content =>
    refine ⟨?_, fun hc => Except.noConfusion hc⟩
    cases hb : content.bind ex with
    | some b =>
      have ha : (generateImageWithGemini ⟨Except.ok content, ex, ig, igf⟩).2
          = [Attempt.chatGemini] := by
        simp [generateImageWithGemini, hb]
      exact ⟨by rw [ha]; decide, by rw [ha]; decide⟩
    | none =>
      cases ig with
      | ok b64 =>
        have ha : (generateImageWithGemini ⟨Except.ok content, ex, Except.ok b64, igf⟩).2
            = [Attempt.chatGemini, Attempt.imagesGpt] := by
          simp [generateImageWithGemini, hb]
        exact ⟨by rw [ha]; decide, by rw [ha]; decide⟩
      | error e =>
        have ha : (generateImageWithGemini ⟨Except.ok content, ex, Except.error e, igf⟩).2
            = [Attempt.chatGemini, Attempt.imagesGpt, Attempt.imagesGpt] := by
          cases igf with
          | error e2 => simp [generateImageWithGemini, hb]
          | ok b64 => simp [generateImageWithGemini, hb]
        exact ⟨by rw [ha]; decide, by rw [ha]; decide⟩

/-- Witness for the amended C3 at the concrete failing environment. -/
theorem c3_single_fallback_no_retry_witness :
    ((generateImageWithGemini envC3).2.count Attempt.chatGemini = 1 ∧
     (generateImageWithGemini envC3).2.count Attempt.imagesGpt ≤ 2) ∧
    ((generateImageWithGemini envC3).2 = [Attempt.chatGemini, Attempt.imagesGpt] ∧
      ((generateImageWithGemini envC3).1 = none ↔
        envC3.imagesGenFallback = Except.error () ∨ envC3.imagesGenFallback = Except.ok none)) :=
  ⟨(c3_single_fallback_no_retry envC3).1, (c3_single_fallback_no_retry envC3).2 rfl⟩

/-! ### Claim C4 -/

/-- A store with one competitor image on the requester's project. -/
def dbC4 : DB :=
  ⟨[⟨1, 1, "p", none, "uploaded"⟩], [⟨10, 1, none, "competitor_input", "k", "f"⟩], [], [], [], 30⟩

/-- C4 counterexample: the project has exactly one competitor image, its
vision call throws, and the route still answers success with zero created
competitor-text records — not "exactly one record per competitor image". -/
theorem c4_failed_vision_call_creates_no_record :
    ((imagesListByProject dbC4 1).filter (fun img => img.type == "competitor_input")).length = 1 ∧
    (extractTextRoute (fun _ => none) dbC4 (some 1) 1 (fun _ => Except.error ())).1
      = RouteOut.ok [] ∧
    ((extractTextRoute (fun _ => none) dbC4 (some 1) 1 (fun _ => Except.error ())).2).competitorTexts
      = [] :=
  ⟨rfl, rfl, rfl⟩

/-- C4 as amended: with no competitor image the route returns 400 and stores
nothing; otherwise it creates one competitor-text record per competitor
image whose vision call succeeds and whose reply parses — storing the
reply's `text` (with `''` default) and its key points serialized as JSON —
skips failing images silently, and returns exactly the created records,
which are appended to the store. -/
theorem c4_extract_text_characterized (pj : String → Option JValue) (db : DB)
    (uid pid : Nat) (vision : Nat → Except Unit (Option String)) (p : Project)
    (hget : projectsGetById db pid = some p) (hown : p.user_id = uid) :
    ((imagesListByProject db pid).filter (fun img => img.type == "competitor_input") = [] →
      extractTextRoute pj db (some uid) pid vision = (RouteOut.err 400, db)) ∧
    (¬ (imagesListByProject db pid).filter (fun img => img.type == "competitor_input") = [] →
      ∃ made db1, extractTextRoute pj db (some uid) pid vision = (RouteOut.ok made, db1) ∧
        made.map (fun r => (r.project_id, r.text, r.analysis))
          = (((imagesListByProject db pid).filter
               (fun img => img.type == "competitor_input")).filterMap
                 (visionParsed pj vision)).map (fun j =>
              (pid, jsOrVal (jGet j "text") (JValue.str ""),
                jStringify (jsOrVal (jGet j "keyPoints") (JValue.arr [])))) ∧
        db1.competitorTexts = db.competitorTexts ++ made) := by
  have hbeq : (p.user_id == uid) = true := by simp [hown]
  constructor
  · intro hemp
    simp only [extractTextRoute, hget, hbeq, if_true, hemp, List.isEmpty_nil, if_true]
  · intro hne
    have hf : ((imagesListByProject db pid).filter
        (fun img => img.type == "competitor_input")).isEmpty = false :=
      isEmpty_false_of_ne _ hne
    refine ⟨(extractLoop pj vision pid
        ((imagesListByProject db pid).filter (fun img => img.type == "competitor_input")) db).1,
      (extractLoop pj vision pid
        ((imagesListByProject db pid).filter (fun img => img.type == "competitor_input")) db).2,
      ?_, ?_, ?_⟩
    · simp only [extractTextRoute, hget, hbeq, if_true, hf, Bool.false_eq_true, if_false]
    · exact extractLoop_map pj vision pid _ db
    · exact extractLoop_texts pj vision pid _ db

/-- A store with two competitor images for the C4 witness. -/
def dbW4 : DB :=
  ⟨[⟨1, 1, "p", none, "uploaded"⟩],
    [⟨10, 1, none, "competitor_input", "k1", "f1"⟩,
     ⟨11, 1, none, "competitor_input", "k2", "f2"⟩], [], [], [], 30⟩

/-- The parser for the C4 witness: the reply `c10` parses to an object with
a text and one key point, anything else fails to parse. -/
def pjW4 : String → Option JValue :=
  fun s => if s = "c10" then
    some (JValue.obj [("text", JValue.str "T"), ("keyPoints", JValue.arr [JValue.str "a"])])
  else none

/-- The vision outcomes for the C4 witness: image 10 answers `c10`, image 11
throws. -/
def visionW4 : Nat → Except Unit (Option String) :=
  fun i => if i = 10 then Except.ok (some "c10") else Except.error ()

/-- Witness for the amended C4: of two competitor images one succeeds and
one throws; exactly one record is created, carrying the extracted text and
the serialized key points, and it is appended to the store. -/
theorem c4_extract_text_characterized_witness :
    ∃ made db1, extractTextRoute pjW4 dbW4 (some 1) 1 visionW4 = (RouteOut.ok made, db1) ∧
      made.map (fun r => (r.project_id, r.text, r.analysis))
        = (((imagesListByProject dbW4 1).filter
             (fun img => img.type == "competitor_input")).filterMap
               (visionParsed pjW4 visionW4)).map (fun j =>
            (1, jsOrVal (jGet j "text") (JValue.str ""),
              jStringify (jsOrVal (jGet j "keyPoints") (JValue.arr [])))) ∧
      db1.competitorTexts = dbW4.competitorTexts ++ made :=
  (c4_extract_text_characterized pjW4 dbW4 1 1 visionW4 ⟨1, 1, "p", none, "uploaded"⟩
    rfl rfl).2 (by decide)

/-! ### Claim C5 -/

/-- The success condition of the script-generation parse (scripts.ts:84-96):
the AI call returned, its content (defaulted to the empty-object text)
parses, and the parsed value carries an array `sections` field. -/
def parseScript (pj : String → Option JValue) (air : Except Unit (Option String)) :
    Option (List JValue) :=
  match air with
  | Except.error _ => none
  | Except.ok content =>
    match pj (orEmptyObj content) with
    | none => none
    | some j => sectionsField j

/-- C5: sections are persisted only on a successful parse with an array
`sections` field.  When the call throws, the content fails to parse, or the
field is missing or not an array, the route answers 500 and the stored
sections are unchanged (only the status was touched); and whenever the
stored sections changed at all, the parse must have succeeded. -/
theorem c5_sections_only_on_valid_parse (pj : String → Option JValue) (db : DB)
    (uid pid : Nat) (air : Except Unit (Option String)) (p : Project)
    (hget : projectsGetById db pid = some p) (hown : p.user_id = uid) :
    (parseScript pj air = none →
      scriptGenerateRoute pj db (some uid) pid air
        = (RouteOut.err 500, projectsUpdateStatus db pid "scripting") ∧
      ((scriptGenerateRoute pj db (some uid) pid air).2).sections = db.sections) ∧
    (∀ userId : Option Nat,
      ¬ ((scriptGenerateRoute pj db userId pid air).2).sections = db.sections →
      ¬ parseScript pj air = none) := by
  have hbeq : (p.user_id == uid) = true := by simp [hown]
  constructor
  · intro hps
    cases air with
    | error e =>
      refine ⟨?_, ?_⟩
      · simp only [scriptGenerateRoute, hget, hbeq, if_true]
      · simp only [scriptGenerateRoute, hget, hbeq, if_true]
        rfl
    | ok content =>
      cases hpj : pj (orEmptyObj content) with
      | none =>
        refine ⟨?_, ?_⟩
        · simp only [scriptGenerateRoute, hget, hbeq, if_true, hpj]
        · simp only [scriptGenerateRoute, hget, hbeq, if_true, hpj]
          rfl
      | some j =>
        have hsf : sectionsField j = none := by
          simpa [parseScript, hpj] using hps
        refine ⟨?_, ?_⟩
        · simp only [scriptGenerateRoute, hget, hbeq, if_true, hpj, hsf]
        · simp only [scriptGenerateRoute, hget, hbeq, if_true, hpj, hsf]
          rfl
  · intro userId hch
    cases userId with
    | none => exact absurd rfl hch
    | some uid2 =>
      cases hget2 : projectsGetById db pid with
      | none => simp only [scriptGenerateRoute, hget2] at hch; exact absurd trivial hch
      | some q =>
        by_cases hq : (q.user_id == uid2) = true
        · cases air with
          | error e => simp only [scriptGenerateRoute, hget2, hq, if_true] at hch; exact absurd rfl hch
          | ok content =>
            cases hpj : pj (orEmptyObj content) with
            | none =>
              simp only [scriptGenerateRoute, hget2, hq, if_true, hpj] at hch
              exact absurd rfl hch
            | some j =>
              cases hsf : sectionsField j with
              | none =>
                simp only [scriptGenerateRoute, hget2, hq, if_true, hpj, hsf] at hch
                exact absurd rfl hch
              | some xs =>
                simp [parseScript, hpj, hsf]
        · simp only [scriptGenerateRoute, hget2, if_neg hq] at hch
          exact absurd trivial hch

/-- A store with a single owned project for the C5 witness. -/
def dbW5 : DB := ⟨[⟨1, 1, "p", none, "uploaded"⟩], [], [], [], [], 20⟩

/-- Witness for C5 at a concrete unparseable reply: the route answers 500
and the stored sections are unchanged. -/
theorem c5_sections_only_on_valid_parse_witness :
    scriptGenerateRoute (fun _ => none) dbW5 (some 1) 1 (Except.ok (some "bad"))
      = (RouteOut.err 500, projectsUpdateStatus dbW5 1 "scripting") ∧
    ((scriptGenerateRoute (fun _ => none) dbW5 (some 1) 1 (Except.ok (some "bad"))).2).sections
      = dbW5.sections :=
  (c5_sections_only_on_valid_parse (fun _ => none) dbW5 1 1 (Except.ok (some "bad"))
    ⟨1, 1, "p", none, "uploaded"⟩ rfl rfl).1 rfl

/-! ### Claim C6 -/

/-- A store whose project has one generated image and no sections. -/
def dbC6 : DB :=
  ⟨[⟨1, 1, "p", none, "generated"⟩], [⟨10, 1, none, "generated_output", "k", "f"⟩],
    [], [], [], 40⟩

/-- C6 counterexample: the project has exactly one generated image, its
download from the object store fails, and the streamed archive holds only
`script.md` — no `detail_1.png` entry, though the claim promises one entry
per generated image. -/
theorem c6_failed_download_skips_entry :
    ((imagesListByProject dbC6 1).filter (fun img => img.type == "generated_output")).length
      = 1 ∧
    (downloadRoute dbC6 (some 1) 1 (fun _ => Except.error ())).1
      = RouteOut.ok [⟨"script.md", "# p - 详情页文案\n\n"⟩] := by
  constructor
  · rfl
  · decide

/-- C6 as amended: with no generated image the route answers 400 and streams
nothing; otherwise the archive holds one entry `detail_<i+1>.png` for each
generated image whose download succeeds — `i` the image's position in the
full generated list, so a failed download leaves a gap rather than
renumbering — followed by `script.md` listing each section's title,
subtitle and description in list order, and the project status becomes
`completed`. -/
theorem c6_download_characterized (db : DB) (uid pid : Nat)
    (f : Nat → Except Unit String) (p : Project)
    (hget : projectsGetById db pid = some p) (hown : p.user_id = uid) :
    ((imagesListByProject db pid).filter (fun img => img.type == "generated_output") = [] →
      downloadRoute db (some uid) pid f = (RouteOut.err 400, db)) ∧
    (¬ (imagesListByProject db pid).filter (fun img => img.type == "generated_output") = [] →
      downloadRoute db (some uid) pid f
        = (RouteOut.ok
            ((List.enum ((imagesListByProject db pid).filter
                (fun img => img.type == "generated_output"))).filterMap (fun e =>
              match f e.2.id with
              | Except.ok b => some ⟨"detail_" ++ toString (e.1 + 1) ++ ".png", b⟩
              | Except.error _ => none)
             ++ [⟨"script.md", scriptMdFor p (sectionsListByProject db pid)⟩]),
           projectsUpdateStatus db pid "completed")) := by
  have hbeq : (p.user_id == uid) = true := by simp [hown]
  constructor
  · intro hemp
    simp only [downloadRoute, hget, hbeq, if_true, hemp, List.isEmpty_nil, if_true]
  · intro hne
    have hf : ((imagesListByProject db pid).filter
        (fun img => img.type == "generated_output")).isEmpty = false :=
      isEmpty_false_of_ne _ hne
    simp only [downloadRoute, hget, hbeq, if_true, hf, Bool.false_eq_true, if_false]
    rw [zipLoop_enumFrom]
    rfl

/-- A store with two generated images and one section for the C6 witness. -/
def dbW6 : DB :=
  ⟨[⟨1, 1, "p", none, "generated"⟩],
    [⟨10, 1, none, "generated_output", "k1", "f1"⟩,
     ⟨11, 1, none, "generated_output", "k2", "f2"⟩],
    [⟨5, 1, 0, "t", some "st", some "d", none⟩], [], [], 40⟩

/-- Downloads for the C6 witness: image 10's bytes arrive, image 11's fetch
throws. -/
def fetchW6 : Nat → Except Unit String :=
  fun i => if i = 10 then Except.ok "B" else Except.error ()

/-- Witness for the amended C6: of two generated images one downloads, the
archive holds `detail_1.png` and `script.md` (the failed second image leaves
a gap), and the script text lists the section's title, subtitle and
description. -/
theorem c6_download_characterized_witness :
    (downloadRoute dbW6 (some 1) 1 fetchW6).1
      = RouteOut.ok [⟨"detail_1.png", "B"⟩,
          ⟨"script.md",
            "# p - 详情页文案\n\n## 第1张图\n\n**主标题：** t\n\n**副标题：** st\n\n**描述：** d\n\n---\n\n"⟩] := by
  have h := (c6_download_characterized dbW6 1 1 fetchW6 ⟨1, 1, "p", none, "generated"⟩
    rfl rfl).2 (by decide)
  rw [h]
  decide

/-! ### Claim C7 -/

/-- C7: GET `/projects/:id` returns, for the owner, the project record
together with exactly the image, section and competitor-text rows the store
holds for that project id (the three reads are independent `Promise.all`
lookups, modelled as a tuple of reads of the same store state); a missing
project yields 404 and a foreign project 403. -/
theorem c7_get_project_detail :
    (∀ (db : DB) (uid pid : Nat) (p : Project),
      projectsGetById db pid = some p → p.user_id = uid →
      getProjectRoute db (some uid) pid
        = RouteOut.ok (p, db.images.filter (fun img => img.project_id == pid),
            db.sections.filter (fun s => s.project_id == pid),
            db.competitorTexts.filter (fun ct => ct.project_id == pid))) ∧
    (∀ (db : DB) (uid pid : Nat), projectsGetById db pid = none →
      getProjectRoute db (some uid) pid = RouteOut.err 404) ∧
    (∀ (db : DB) (uid pid : Nat) (p : Project),
      projectsGetById db pid = some p → ¬ p.user_id = uid →
      getProjectRoute db (some uid) pid = RouteOut.err 403) := by
  refine ⟨?_, ?_, ?_⟩
  · intro db uid pid p hget hown
    have hbeq : (p.user_id == uid) = true := by simp [hown]
    simp only [getProjectRoute, hget, hbeq, if_true]
    rfl
  · intro db uid pid hget
    simp only [getProjectRoute, hget]
  · intro db uid pid p hget hown
    have hbeq : (p.user_id == uid) = false := by simpa using hown
    simp only [getProjectRoute, hget, hbeq, Bool.false_eq_true, if_false]

/-- A store holding rows of two different projects, for the C7 witness. -/
def dbW7 : DB :=
  ⟨[⟨1, 1, "p", none, "uploaded"⟩, ⟨2, 2, "q", none, "uploaded"⟩],
    [⟨10, 1, none, "product_input", "k1", "f1"⟩, ⟨11, 2, none, "product_input", "k2", "f2"⟩],
    [⟨5, 1, 0, "t", none, none, none⟩, ⟨6, 2, 0, "u", none, none, none⟩],
    [⟨7, 1, JValue.str "x", "[]"⟩, ⟨8, 2, JValue.str "y", "[]"⟩], [], 99⟩

/-- Witness for C7: the owner of project 1 receives the project merged with
exactly its own rows — the other project's rows are filtered out. -/
theorem c7_get_project_detail_witness :
    getProjectRoute dbW7 (some 1) 1
      = RouteOut.ok (⟨1, 1, "p", none, "uploaded"⟩,
          [⟨10, 1, none, "product_input", "k1", "f1"⟩],
          [⟨5, 1, 0, "t", none, none, none⟩],
          [⟨7, 1, JValue.str "x", "[]"⟩]) := by
  have h := c7_get_project_detail.1 dbW7 1 1 ⟨1, 1, "p", none, "uploaded"⟩ rfl rfl
  rw [h]
  rfl

/-! ### Claim C8 -/

/-- C8: in batch image generation every per-section generation failure is
skipped silently — the loop continues, the returned list holds exactly the
images of the sections whose generation yielded bytes (in section order),
the project status still becomes `generated`, and when every section fails
the response is still a success carrying an empty image list. -/
theorem c8_generation_failures_skipped (db : DB) (uid pid now : Nat)
    (g : Nat → Option String) (p : Project)
    (hget : projectsGetById db pid = some p) (hown : p.user_id = uid)
    (hsecs : ¬ sectionsListByProject db pid = []) :
    ∃ imgs db2, generateImagesRoute db (some uid) pid g now = (RouteOut.ok imgs, db2) ∧
      imgs.map (fun i => i.section_id)
        = ((sectionsListByProject db pid).filter (fun s => (g s.id).isSome)).map
            (fun s => some s.id) ∧
      projectsGetById db2 pid = some { p with status := "generated" } ∧
      ((∀ s ∈ sectionsListByProject db pid, g s.id = none) → imgs = []) := by
  have hbeq : (p.user_id == uid) = true := by simp [hown]
  have hne : (sectionsListByProject (projectsUpdateStatus db pid "generating") pid).isEmpty
      = false := isEmpty_false_of_ne _ hsecs
  refine ⟨(genLoop g pid now
      (sectionsListByProject (projectsUpdateStatus db pid "generating") pid)
      (projectsUpdateStatus db pid "generating")).1,
    projectsUpdateStatus (genLoop g pid now
      (sectionsListByProject (projectsUpdateStatus db pid "generating") pid)
      (projectsUpdateStatus db pid "generating")).2 pid "generated", ?_, ?_, ?_, ?_⟩
  · simp only [generateImagesRoute, hget, hbeq, if_true, hne, Bool.false_eq_true, if_false]
  · exact genLoop_map_section_id g pid now _ _
  · have h1 : projectsGetById (projectsUpdateStatus db pid "generating") pid
        = some { p with status := "generating" } :=
      projectsGetById_updateStatus db pid "generating" p hget
    have h2 : projectsGetById
        (genLoop g pid now (sectionsListByProject (projectsUpdateStatus db pid "generating") pid)
          (projectsUpdateStatus db pid "generating")).2 pid
        = some { p with status := "generating" } := by
      unfold projectsGetById at h1 ⊢
      rw [genLoop_projects]
      exact h1
    exact projectsGetById_updateStatus _ pid "generated" { p with status := "generating" } h2
  · intro hall
    have hfil : (sectionsListByProject db pid).filter (fun s => (g s.id).isSome) = [] := by
      rw [List.filter_eq_nil_iff]
      intro s hs
      simp [hall s hs]
    have hmap := genLoop_map_section_id g pid now
      (sectionsListByProject (projectsUpdateStatus db pid "generating") pid)
      (projectsUpdateStatus db pid "generating")
    rw [show sectionsListByProject (projectsUpdateStatus db pid "generating") pid
        = sectionsListByProject db pid from rfl, hfil] at hmap
    simpa using hmap

/-- A store with a `scripted` project owning two sections, for the C8
witness. -/
def dbW8 : DB :=
  ⟨[⟨1, 1, "p", none, "scripted"⟩], [],
    [⟨5, 1, 0, "t", none, none, none⟩, ⟨6, 1, 1, "u", none, none, none⟩], [], [], 9⟩

/-- Witness for C8 where every section's generation fails: the route still
succeeds with an empty image list and the status becomes `generated`. -/
theorem c8_generation_failures_skipped_witness :
    ∃ imgs db2, generateImagesRoute dbW8 (some 1) 1 (fun _ => none) 0
        = (RouteOut.ok imgs, db2) ∧
      imgs.map (fun i => i.section_id)
        = ((sectionsListByProject dbW8 1).filter (fun s => ((fun _ => none : Nat → Option String) s.id).isSome)).map
            (fun s => some s.id) ∧
      projectsGetById db2 1 = some ⟨1, 1, "p", none, "generated"⟩ ∧
      ((∀ s ∈ sectionsListByProject dbW8 1, (fun _ => none : Nat → Option String) s.id = none) →
        imgs = []) :=
  c8_generation_failures_skipped dbW8 1 1 0 (fun _ => none) ⟨1, 1, "p", none, "scripted"⟩
    rfl rfl (by decide)

/-! ### Claim C9 -/

/-- C9: the configured multer gate accepts a request exactly when it carries
at most 20 files, each of at most 10 MB (10 * 1024 * 1024 bytes) and with a
MIME type starting with `image/`; a request the gate refuses fails before
the handler runs, leaving the store unchanged — no image record is created
for any file. -/
theorem c9_upload_limits :
    (∀ files : List UploadFile,
      multerAccepts files = true ↔
        (files.length ≤ 20 ∧
          ∀ f ∈ files, f.size ≤ 10 * 1024 * 1024 ∧ f.mimetype.startsWith "image/" = true)) ∧
    (∀ (db : DB) (userId : Option Nat) (pid : Nat) (ty : Option String)
        (files : List UploadFile) (k : Nat → String),
      multerAccepts files = false →
      uploadImagesRoute db userId pid ty files k = (UploadOut.middlewareError, db)) := by
  constructor
  · intro files
    simp [multerAccepts, uploadFileFilterAccepts, uploadFileSizeLimit, List.all_eq_true,
      Bool.and_eq_true, decide_eq_true_eq]
  · intro db userId pid ty files k hm
    simp only [uploadImagesRoute, hm, Bool.not_false, if_true]

/-- An 11-megabyte PNG, over the configured size limit. -/
def bigFile : UploadFile := ⟨"a.png", "image/png", 11 * 1024 * 1024⟩

/-- A store for the C9 witness. -/
def dbW9 : DB := ⟨[⟨1, 1, "p", none, "uploaded"⟩], [], [], [], [], 9⟩

/-- Witness for C9: a request with an oversized file is refused by the
middleware and the store is unchanged. -/
theorem c9_upload_limits_witness :
    multerAccepts [bigFile] = false ∧
    uploadImagesRoute dbW9 (some 1) 1 none [bigFile] (fun _ => "k")
      = (UploadOut.middlewareError, dbW9) :=
  ⟨by decide, c9_upload_limits.2 dbW9 (some 1) 1 none [bigFile] (fun _ => "k") (by decide)⟩

/-! ### Claim C10 -/

/-- C10: with a well-formed request (non-empty email and password),
registration answers 400 and stores nothing when the email is taken;
otherwise it stores a user whose password field holds `bcrypt.hash` of the
password — the plaintext appears in no stored field — and login succeeds
(returns a token) exactly when a user with the email exists and
`bcrypt.compare` accepts the supplied password against the stored hash. -/
theorem c10_register_login (env : AuthEnv) (db : DB) (e pw : String)
    (he : ¬ e = "") (hpw : ¬ pw = "") :
    (∀ (n : Option String) (u : UserRec), usersFindByEmail db e = some u →
      registerRoute env db e pw n = (RouteOut.err 400, db)) ∧
    (∀ n : Option String, usersFindByEmail db e = none →
      (registerRoute env db e pw n).1
          = RouteOut.ok (⟨db.nextId, e, env.bcryptHash pw, n, none⟩, env.tokenFor db.nextId) ∧
      ((registerRoute env db e pw n).2).users
          = db.users ++ [⟨db.nextId, e, env.bcryptHash pw, n, none⟩]) ∧
    ((∃ u t, loginRoute env db e pw = RouteOut.ok (u, t)) ↔
      ∃ u, usersFindByEmail db e = some u ∧ env.bcryptCompare pw u.password_hash = true) := by
  have hbe : (e == "") = false := by simp [he]
  have hbp : (pw == "") = false := by simp [hpw]
  refine ⟨?_, ?_, ?_⟩
  · intro n u hfind
    simp only [registerRoute, hbe, hbp, Bool.or_self, Bool.false_eq_true, if_false, hfind]
  · intro n hfind
    constructor
    · simp only [registerRoute, hbe, hbp, Bool.or_self, Bool.false_eq_true, if_false, hfind]
    · simp only [registerRoute, hbe, hbp, Bool.or_self, Bool.false_eq_true, if_false, hfind]
  · cases hfind : usersFindByEmail db e with
    | none =>
      constructor
      · rintro ⟨u, t, hl⟩
        simp only [loginRoute, hbe, hbp, Bool.or_self, Bool.false_eq_true, if_false, hfind] at hl
        exact RouteOut.noConfusion hl
      · rintro ⟨u, hu, _⟩
        exact Option.noConfusion hu
    | some u =>
      cases hc : env.bcryptCompare pw u.password_hash with
      | true =>
        constructor
        · intro _
          exact ⟨u, rfl, hc⟩
        · intro _
          refine ⟨u, env.tokenFor u.id, ?_⟩
          simp only [loginRoute, hbe, hbp, Bool.or_self, Bool.false_eq_true, if_false, hfind,
            hc, if_true]
      | false =>
        constructor
        · rintro ⟨u2, t2, hl⟩
          simp only [loginRoute, hbe, hbp, Bool.or_self, Bool.false_eq_true, if_false, hfind,
            hc, Bool.false_eq_true] at hl
          exact RouteOut.noConfusion hl
        · rintro ⟨u2, hu2, hc2⟩
          injection hu2 with h2
          subst h2
          rw [hc] at hc2
          exact Bool.noConfusion hc2

/-- The bcrypt/JWT environment for the C10 witness: hashing prepends `h`,
compare checks that shape, the token is a constant. -/
def envW10 : AuthEnv :=
  ⟨fun s => "h" ++ s, fun p h => h == "h" ++ p, fun _ => "t"⟩

/-- A store with one registered user for the C10 witness. -/
def dbW10 : DB := ⟨[], [], [], [], [⟨1, "a@x", "hsecret", none, none⟩], 2⟩

/-- Witness for C10: re-registering a taken email answers 400 and stores
nothing; registering a fresh email stores the bcrypt hash of the password;
login with the matching password succeeds. -/
theorem c10_register_login_witness :
    registerRoute envW10 dbW10 "a@x" "secret" none = (RouteOut.err 400, dbW10) ∧
    ((registerRoute envW10 dbW10 "b@x" "pw" none).1
        = RouteOut.ok (⟨2, "b@x", envW10.bcryptHash "pw", none, none⟩, envW10.tokenFor 2) ∧
      ((registerRoute envW10 dbW10 "b@x" "pw" none).2).users
        = dbW10.users ++ [⟨2, "b@x", envW10.bcryptHash "pw", none, none⟩]) ∧
    (∃ u t, loginRoute envW10 dbW10 "a@x" "secret" = RouteOut.ok (u, t)) := by
  refine ⟨?_, ?_, ?_⟩
  · exact (c10_register_login envW10 dbW10 "a@x" "secret" (by decide) (by decide)).1 none
      ⟨1, "a@x", "hsecret", none, none⟩ rfl
  · exact (c10_register_login envW10 dbW10 "b@x" "pw" (by decide) (by decide)).2.1 none rfl
  · exact (c10_register_login envW10 dbW10 "a@x" "secret" (by decide) (by decide)).2.2.mpr
      ⟨⟨1, "a@x", "hsecret", none, none⟩, rfl, by decide⟩

end ECom
